import Mathlib

/-!
Verification of the record-flattening / field-resolution core of the
OA_Raw_data_fetch_odoo ETL scripts.

The Python sources are embedded shallowly:

* JSON-like values returned by the Odoo `web_search_read` endpoint are the
  inductive type `RawValue` (null, bool, int, string, list, dict). Python
  dicts are modelled as insertion-ordered association lists with unique keys,
  which is how the scripts use them. Floats do not occur in the resolver
  claims and are not modelled; the aggregation stage models its numeric
  column exactly, as rationals.
* Python `str(...)` / `repr(...)` on these values are `pyStr` / `pyRepr`.
  `pyRepr` of a string models CPython output for strings that contain no
  quote or escape-requiring characters, which is the only case exercised.
* `get_string_value` embeds the identical helper found in
  AR_invoice_status_data.py, OA_ITEM_WISE_data_fetch_odoo.py,
  srnjnsr_req_OA.py and AR_Report_combine_invoice.py; `fg_get_string_value`
  embeds the FG_Dispatch_data_fetch.py variant (extra list branch, and the
  dict fallback skips `None` values).
* A crucial Python fact that the embedding preserves: `bool` is a subtype of
  `int`, so `isinstance(False, int)` is true and boolean fields reach the
  `isinstance(field, int)` branch, stringifying as "False"/"True"; the later
  `field in (False, None)` branch is reachable only by `None`.
-/

/-- A JSON-like value as delivered by the Odoo RPC layer: null, boolean,
integer, string, list, or mapping (insertion-ordered, unique string keys). -/
inductive RawValue where
  | vnull : RawValue
  | vbool : Bool → RawValue
  | vint : Int → RawValue
  | vstr : String → RawValue
  | vlist : List RawValue → RawValue
  | vdict : List (String × RawValue) → RawValue

/-- A Python dict record: field name to raw value, in insertion order. -/
abbrev PyDict := List (String × RawValue)

/-- Python truthiness of a RawValue (`bool(v)`). -/
def pyTruthy : RawValue → Bool
  | .vnull => false
  | .vbool b => b
  | .vint n => n ≠ 0
  | .vstr s => s ≠ ""
  | .vlist xs => ¬ xs.isEmpty
  | .vdict kvs => ¬ kvs.isEmpty

/-- First binding of key `k` in a dict (Python dicts have unique keys). -/
def dictFind (kvs : PyDict) (k : String) : Option RawValue :=
  match kvs with
  | [] => none
  | (k0, v) :: rest => if k0 = k then some v else dictFind rest k

/-- Python `d.get(k)`: the value, or `None` when the key is absent. -/
def dictGet (kvs : PyDict) (k : String) : RawValue :=
  (dictFind kvs k).getD .vnull

/-- Python `d.get(k, default)`. -/
def dictGetD (kvs : PyDict) (k : String) (default : RawValue) : RawValue :=
  (dictFind kvs k).getD default

/-- Python `d.values()` in insertion order. -/
def dictValues (kvs : PyDict) : List RawValue :=
  kvs.map Prod.snd

/-- The single-quote character, written by code point to keep the source
free of literal quote characters. -/
def pyQuote : String := String.singleton (Char.ofNat 39)

mutual

/-- Python `repr(v)` for the modelled value shapes. String reprs are modelled
for strings without quote or escape-requiring characters (the only case the
sources and the claims exercise). -/
def pyRepr : RawValue → String
  | .vnull => "None"
  | .vbool b => if b then "True" else "False"
  | .vint n => toString n
  | .vstr s => pyQuote ++ s ++ pyQuote
  | .vlist xs => "[" ++ String.intercalate ", " (pyReprList xs) ++ "]"
  | .vdict kvs => "\x7b" ++ String.intercalate ", " (pyReprKVs kvs) ++ "\x7d"

/-- reprs of the elements of a list. -/
def pyReprList : List RawValue → List String
  | [] => []
  | x :: xs => pyRepr x :: pyReprList xs

/-- reprs of the key/value pairs of a dict. -/
def pyReprKVs : List (String × RawValue) → List String
  | [] => []
  | (k, v) :: rest => (pyQuote ++ k ++ pyQuote ++ ": " ++ pyRepr v) :: pyReprKVs rest

end

/-- Python `str(v)`: identity on strings, `repr` otherwise (for the modelled
shapes; `str` and `repr` agree on ints, bools, None, lists and dicts). -/
def pyStr : RawValue → String
  | .vstr s => s
  | v => pyRepr v

/-- The no-subfield body of `get_string_value` as written identically in
AR_invoice_status_data.py (lines 51-62), OA_ITEM_WISE_data_fetch_odoo.py,
srnjnsr_req_OA.py and AR_Report_combine_invoice.py, with the branches in
source order:
dict (display_name key, else space-joined values), `isinstance(field, int)`
(which booleans also satisfy, since Python bool is an int subtype),
`field in (False, None)` (reachable only by None: False was already caught
by the int branch, and ints equal to False, i.e. 0, likewise), final
`str(field)`. -/
def gsv_nosub (field : RawValue) : String :=
  match field with
  | .vdict d =>
      match dictFind d "display_name" with
      | some dv => if pyTruthy dv then pyStr dv else ""
      | none => String.intercalate " " ((dictValues d).map pyStr)
  | .vint n => toString n
  | .vbool b => if b then "True" else "False"
  | .vnull => ""
  | v => pyStr v

/-- `get_string_value(field, subfield=None)` of the four non-FG scripts.
The `subfield` parameter is consulted only in the dict branch, and only when
truthy (a non-empty string); the recursive call
`get_string_value(field.get(subfield))` runs with `subfield=None`. -/
def get_string_value (field : RawValue) (subfield : Option String := none) :
    String :=
  match field, subfield with
  | .vdict d, some s =>
      if s ≠ "" then gsv_nosub (dictGet d s) else gsv_nosub (.vdict d)
  | f, _ => gsv_nosub f

/-- Whether a value is Python `None` (`v is not None` filters). -/
def isNoneV : RawValue → Bool
  | .vnull => true
  | _ => false

/-- The no-subfield body of FG_Dispatch_data_fetch.py `get_string_value`
(lines 78-107). Differences from `gsv_nosub`: the dict fallback joins only
values that are not None (`if v is not None`), and there is a list branch
before the int branch: length >= 2 returns `str(field[1] or "")`, length 1
returns `str(field[0])`, empty returns "". -/
def fg_gsv_nosub (field : RawValue) : String :=
  match field with
  | .vdict d =>
      match dictFind d "display_name" with
      | some dv => if pyTruthy dv then pyStr dv else ""
      | none =>
          String.intercalate " "
            (((dictValues d).filter (fun v => ¬ isNoneV v)).map pyStr)
  | .vlist (_ :: y :: _) => if pyTruthy y then pyStr y else ""
  | .vlist [x] => pyStr x
  | .vlist [] => ""
  | .vint n => toString n
  | .vbool b => if b then "True" else "False"
  | .vnull => ""
  | v => pyStr v

/-- `get_string_value(field, subfield=None)` of FG_Dispatch_data_fetch.py. -/
def fg_get_string_value (field : RawValue) (subfield : Option String := none) :
    String :=
  match field, subfield with
  | .vdict d, some s =>
      if s ≠ "" then fg_gsv_nosub (dictGet d s) else fg_gsv_nosub (.vdict d)
  | f, _ => fg_gsv_nosub f

/-- A Python exception raised by a user-supplied extraction callable. -/
inductive PyExn where
  | exn : PyExn

/-- An extraction rule of AR_Report_combine_invoice.py `flatten_records`:
a field-name string, a two-element `(record_key, subfield)` tuple (the
subfield may be None, as in the source map entries such as
`("buying_house", None)`), or a callable on the record. Callables may raise,
modelled as `Except PyExn`; the other two shapes evaluate pure, total
Python code (`dict.get` and `get_string_value`) and cannot raise. -/
inductive FieldSpec where
  | fname : String → FieldSpec
  | fpair : String → Option String → FieldSpec
  | fcall : (PyDict → Except PyExn RawValue) → FieldSpec

/-- The body of the `try:` block in AR_Report_combine_invoice.py
`flatten_records` (lines 209-215): dispatch on the shape of the rule. -/
def evalSpec (spec : FieldSpec) (r : PyDict) : Except PyExn RawValue :=
  match spec with
  | .fcall g => g r
  | .fpair f sub => .ok (.vstr (get_string_value (dictGet r f) sub))
  | .fname f => .ok (.vstr (get_string_value (dictGet r f)))

/-- One row of AR_Report_combine_invoice.py `flatten_records`: every column
of `field_map` in declaration order; a rule that raises contributes the
empty string (the `except Exception: val = ""` arm). -/
def rowFor (field_map : List (String × FieldSpec)) (r : PyDict) : PyDict :=
  field_map.map (fun cs =>
    (cs.1, match evalSpec cs.2 r with
           | .ok v => v
           | .error _ => .vstr ""))

/-- `flatten_records(records, field_map)` of AR_Report_combine_invoice.py
(lines 198-220): one output row per input record. -/
def flatten_records (records : List PyDict)
    (field_map : List (String × FieldSpec)) : List PyDict :=
  records.map (rowFor field_map)

/-- Elements of a sequence value. The scripts only ever iterate values that
the API returns as JSON arrays; iterating a non-sequence would raise in
Python and is outside every claim, so non-lists map to the empty sequence. -/
def asList : RawValue → List RawValue
  | .vlist xs => xs
  | _ => []

/-- The mapping entries of a dict value; the scripts only call `.get` on
values the API returns as JSON objects. -/
def asDict : RawValue → PyDict
  | .vdict d => d
  | _ => []

/-- Python `a or b`. -/
def pyOr (a b : RawValue) : RawValue :=
  if pyTruthy a then a else b

/-- The row literal of OA_ITEM_WISE_data_fetch_odoo.py `flatten_records`
(lines 200-220), built from one order line;
`order_id = line.get("order_id", {}) or {}`. -/
def oa_row (line : PyDict) : PyDict :=
  let order_id := asDict (pyOr (dictGetD line "order_id" (.vdict [])) (.vdict []))
  [("Order Reference", .vstr (get_string_value (dictGet order_id "name"))),
   ("Sales Order Ref.", .vstr (get_string_value (dictGet order_id "order_ref"))),
   ("Buyer", .vstr (get_string_value (dictGet order_id "buyer_name"))),
   ("Brand Group",
    .vstr (get_string_value (dictGet order_id "buyer_name") (some "brand"))),
   ("Buying House", .vstr (get_string_value (dictGet order_id "buying_house"))),
   ("Company", .vstr (get_string_value (dictGet order_id "company_id"))),
   ("Customer", .vstr (get_string_value (dictGet order_id "partner_id"))),
   ("Customer Group",
    .vstr (get_string_value (dictGet order_id "partner_id") (some "group"))),
   ("Order Date", .vstr (get_string_value (dictGet order_id "date_order"))),
   ("Sales Team", .vstr (get_string_value (dictGet order_id "team_id"))),
   ("Salesperson", .vstr (get_string_value (dictGet order_id "user_id"))),
   ("FG Category",
    .vstr (get_string_value (dictGet line "product_template_id")
      (some "fg_categ_type"))),
   ("Quantity", dictGetD line "product_uom_qty" (.vint 0)),
   ("Total", dictGetD line "price_total" (.vint 0)),
   ("Slider Code (SFG)", .vstr (get_string_value (dictGet line "slidercodesfg"))),
   ("LC Number", .vstr (get_string_value (dictGet order_id "lc_number"))),
   ("Payment Terms",
    .vstr (get_string_value (dictGet order_id "payment_term_id"))),
   ("Status", .vstr (get_string_value (dictGet order_id "state")))]

/-- `flatten_records(records)` of OA_ITEM_WISE_data_fetch_odoo.py
(lines 195-221): for each record, one row per element of
`record.get("order_line", [])`; a record whose `order_line` is empty
contributes no rows. -/
def oa_flatten_records (records : List PyDict) : List PyDict :=
  records.flatMap (fun record =>
    (asList (dictGetD record "order_line" (.vlist []))).map
      (fun l => oa_row (asDict l)))

/-- `invoice_lines = line.get("invoice_lines", []) or []` of
srnjnsr_req_OA.py. -/
def srn_inv_lines (line : PyDict) : List RawValue :=
  asList (pyOr (dictGetD line "invoice_lines" (.vlist [])) (.vlist []))

/-- The 24 entries that the two row literals of srnjnsr_req_OA.py
`flatten_records` (lines 207-237 and 240-270) share verbatim, in source
order; both branches compute them from `line` and
`order_id = line.get("order_id", {}) or {}` with identical expressions. -/
def srn_row_base (line order_id : PyDict) : PyDict :=
  [("Order Reference", .vstr (get_string_value (dictGet order_id "name"))),
   ("Sales Order Ref.", .vstr (get_string_value (dictGet order_id "order_ref"))),
   ("Buyer", .vstr (get_string_value (dictGet order_id "buyer_name"))),
   ("Brand Group",
    .vstr (get_string_value (dictGet order_id "buyer_name") (some "brand"))),
   ("Buying House", .vstr (get_string_value (dictGet order_id "buying_house"))),
   ("Company", .vstr (get_string_value (dictGet order_id "company_id"))),
   ("Customer", .vstr (get_string_value (dictGet order_id "partner_id"))),
   ("Customer Group",
    .vstr (get_string_value (dictGet order_id "partner_id") (some "group"))),
   ("Order Date", .vstr (get_string_value (dictGet order_id "date_order"))),
   ("Sales Team", .vstr (get_string_value (dictGet order_id "team_id"))),
   ("Salesperson", .vstr (get_string_value (dictGet order_id "user_id"))),
   ("FG Category",
    .vstr (get_string_value (dictGet line "product_template_id")
      (some "fg_categ_type"))),
   ("Quantity", dictGetD line "product_uom_qty" (.vint 0)),
   ("Discount (%)", dictGetD line "discount" (.vint 0)),
   ("Shade Code", .vstr (get_string_value (dictGet line "shade_code"))),
   ("Shade Name", .vstr (get_string_value (dictGet line "shade"))),
   ("Size (CM)", .vstr (get_string_value (dictGet line "sizecm"))),
   ("Size (Inch)", .vstr (get_string_value (dictGet line "sizein"))),
   ("Total", dictGetD line "price_total" (.vint 0)),
   ("Slider Code (SFG)", .vstr (get_string_value (dictGet line "slidercodesfg"))),
   ("OA Ref", .vstr (get_string_value (dictGet line "shade_ref_2"))),
   ("LC Number", .vstr (get_string_value (dictGet order_id "lc_number"))),
   ("Payment Terms",
    .vstr (get_string_value (dictGet order_id "payment_term_id"))),
   ("Status", .vstr (get_string_value (dictGet order_id "state")))]

/-- The row emitted per invoice line in the `if invoice_lines:` branch of
srnjnsr_req_OA.py `flatten_records`. -/
def srn_row_inv (line order_id inv : PyDict) : PyDict :=
  srn_row_base line order_id ++
  [("Invoice Number", .vstr (get_string_value (dictGet inv "move_name"))),
   ("Invoice Status", .vstr (get_string_value (dictGet inv "parent_state"))),
   ("Invoice Subtotal", dictGetD inv "price_subtotal" (.vint 0)),
   ("Invoice Total", dictGetD inv "price_total" (.vint 0)),
   ("Invoice/Bill Date", .vstr (get_string_value (dictGet inv "invoice_date")))]

/-- The single row of the `else` ("No invoice lines — still include one
row") branch of srnjnsr_req_OA.py `flatten_records`. -/
def srn_row_noinv (line order_id : PyDict) : PyDict :=
  srn_row_base line order_id ++
  [("Invoice Number", .vstr ""),
   ("Invoice Status", .vstr ""),
   ("Invoice Subtotal", .vint 0),
   ("Invoice Total", .vint 0),
   ("Invoice/Bill Date", .vstr "")]

/-- `flatten_records(records)` of srnjnsr_req_OA.py (lines 196-271): per
record, per order line, one row per invoice line when
`line.get("invoice_lines", []) or []` is non-empty, else exactly one row
with empty invoice columns. A record whose `order_line` is empty
contributes no rows. -/
def srn_flatten_records (records : List PyDict) : List PyDict :=
  records.flatMap (fun record =>
    (asList (dictGetD record "order_line" (.vlist []))).flatMap (fun lv =>
      let line := asDict lv
      let order_id :=
        asDict (pyOr (dictGetD line "order_id" (.vdict [])) (.vdict []))
      let invs := srn_inv_lines line
      if invs.isEmpty then [srn_row_noinv line order_id]
      else invs.map (fun iv => srn_row_inv line order_id (asDict iv))))

/-- The column names of every row emitted by srnjnsr_req_OA.py
`flatten_records`, in the order both source row literals declare them. -/
def srnColumns : List String :=
  ["Order Reference", "Sales Order Ref.", "Buyer", "Brand Group",
   "Buying House", "Company", "Customer", "Customer Group", "Order Date",
   "Sales Team", "Salesperson", "FG Category", "Quantity", "Discount (%)",
   "Shade Code", "Shade Name", "Size (CM)", "Size (Inch)", "Total",
   "Slider Code (SFG)", "OA Ref", "LC Number", "Payment Terms", "Status",
   "Invoice Number", "Invoice Status", "Invoice Subtotal", "Invoice Total",
   "Invoice/Bill Date"]

/-- The group-and-sum step shared by the pipelines
(`df.groupby(group_cols ...)[numeric_cols].sum()` /
`.agg({col: "sum"})`): a flat row is its tuple of dimension-column values
(all non-numeric columns, as the sources compute them) paired with a
numeric measure value, modelled exactly as a rational. One output row per
distinct key, carrying the sum of the measures of the rows with that key.
Output keys are listed in order of last appearance; pandas sorts group keys,
and no claim depends on row order. -/
def groupSum (rows : List (List String × ℚ)) : List (List String × ℚ) :=
  ((rows.map Prod.fst).dedup).map (fun k =>
    (k, ((rows.filter (fun r => r.1 = k)).map Prod.snd).sum))

/-- Rounding of a scalar to an integer as numpy/pandas do it: round half to
even (banker's rounding). -/
def roundHalfEven (q : ℚ) : ℤ :=
  let f : ℤ := ⌊q⌋
  if q - f < 1 / 2 then f
  else if q - f > 1 / 2 then f + 1
  else if f % 2 = 0 then f else f + 1

/-- `round(2)` on a numeric cell, as applied by
`df.groupby(...).agg(agg_dict).round(2)`. -/
def round2 (q : ℚ) : ℚ := (roundHalfEven (q * 100) : ℚ) / 100

/-- The grouped output handed to the sink by OA_ITEM_WISE_data_fetch_odoo.py
(line 280) and srnjnsr_req_OA.py (line 308):
`df.groupby(group_cols, as_index=False).agg(agg_dict).round(2)`. -/
def oa_group_round (rows : List (List String × ℚ)) : List (List String × ℚ) :=
  (groupSum rows).map (fun kr => (kr.1, round2 kr.2))

/-- The grouped output handed to the sink by
APR_Combone_Inv_data_fetch.py `normalize_dates_and_group` (lines 168-179):
`df.groupby(group_cols, dropna=False)[numeric_cols].sum().reset_index()`,
with no rounding step; the date normalization that precedes it rewrites
dimension values and is identity on the modelled dimension strings. -/
def apr_group (rows : List (List String × ℚ)) : List (List String × ℚ) :=
  groupSum rows

/-- The paginated fetch loop shared by `fetch_all_data`
(OA_data_fetch_odoo.py lines 46-100), `fetch_combine_invoice`
(AR_invoice_status_data.py lines 66-137) and the other scripts:
request the page at `offset`, append its records, stop if the page is
shorter than `batch_size`, else advance `offset` by `batch_size`. `pages`
is the upstream collaborator: the records returned for a given offset.
The loop is `while True` in the source; the embedding adds fuel, and the
claim theorem shows the result is reached, and is fuel-independent, once
the fuel covers the first short page. -/
def fetch_pages {α : Type} (pages : Nat → List α) (batch : Nat) :
    Nat → Nat → List α
  | 0, _ => []
  | fuel + 1, offset =>
      let records := pages offset
      if records.length < batch then records
      else records ++ fetch_pages pages batch fuel (offset + batch)

/-- `fetch_all_data` run from offset 0. -/
def fetch_all_data {α : Type} (pages : Nat → List α) (batch fuel : Nat) :
    List α :=
  fetch_pages pages batch fuel 0

/-- C1: claimed — `get_string_value` returns "" for boolean false and for
null. The code disagrees on boolean false: Python `bool` is a subtype of
`int`, so `isinstance(False, int)` holds and `False` is stringified by the
int branch as "False"; the `field in (False, None)` branch that returns ""
is reachable only by `None`. Both resolver variants behave the same way.
This theorem evaluates the embedded code at the failing input. -/
theorem resolver_false_stringifies_not_empty :
    get_string_value (.vbool false) = "False" ∧
    get_string_value .vnull = "" ∧
    fg_get_string_value (.vbool false) = "False" ∧
    fg_get_string_value .vnull = "" :=
  ⟨rfl, rfl, rfl, rfl⟩

/-- C5 counterexample: the claim "a two-element sequence [id, label]
resolves to str(label)" fails twice on the code. FG_Dispatch applies
`str(field[1] or "")`, so a falsy label gives "" instead of str(label)
(= "False" here); and the AR_invoice_status variant has no list branch at
all, so a pair falls through to `str(field)` — the Python rendering of the
whole list — instead of the label "A". -/
theorem resolver_pair_label_counterexample :
    (fg_get_string_value (.vlist [.vint 5, .vbool false]) = "" ∧
     pyStr (.vbool false) = "False") ∧
    (get_string_value (.vlist [.vint 1, .vstr "A"]) =
       pyStr (.vlist [.vint 1, .vstr "A"]) ∧
     get_string_value (.vlist [.vint 1, .vstr "A"]) ≠ "A") :=
  ⟨⟨rfl, rfl⟩, ⟨rfl, by decide⟩⟩

/-- C5 amended: only FG_Dispatch resolves sequences. There, a sequence of
length at least two resolves to str of element 1 when that element is
truthy and to "" when it is falsy; a one-element sequence resolves to str
of its element; an empty sequence resolves to "". The resolver of the other
four scripts has no sequence branch: every sequence falls through to the
generic string conversion of the whole sequence. -/
theorem resolver_pair_label_amended :
    (∀ (x y : RawValue) (rest : List RawValue),
      fg_get_string_value (.vlist (x :: y :: rest)) =
        if pyTruthy y then pyStr y else "") ∧
    (∀ x : RawValue, fg_get_string_value (.vlist [x]) = pyStr x) ∧
    fg_get_string_value (.vlist []) = "" ∧
    (∀ xs : List RawValue, get_string_value (.vlist xs) = pyStr (.vlist xs)) :=
  ⟨fun _ _ _ => rfl, fun _ => rfl, rfl, fun _ => rfl⟩

/-- The first 24 entries of a per-invoice row are the shared line-level
entries, independent of the invoice line. -/
theorem srn_row_inv_take (l o i : PyDict) :
    (srn_row_inv l o i).take 24 = srn_row_base l o := by
  have hlen : (srn_row_base l o).length = 24 := rfl
  rw [srn_row_inv, ← hlen, List.take_left]

/-- Key list of a per-invoice row. -/
theorem srn_row_inv_keys (l o i : PyDict) :
    (srn_row_inv l o i).map Prod.fst = srnColumns := rfl

/-- Key list of the no-invoice row. -/
theorem srn_row_noinv_keys (l o : PyDict) :
    (srn_row_noinv l o).map Prod.fst = srnColumns := rfl

/-- Every row of `srn_flatten_records` is a per-invoice row or the
no-invoice row. -/
theorem srn_mem_shape {records : List PyDict} {row : PyDict}
    (h : row ∈ srn_flatten_records records) :
    (∃ l o i, row = srn_row_inv l o i) ∨ ∃ l o, row = srn_row_noinv l o := by
  simp only [srn_flatten_records, List.mem_flatMap] at h
  obtain ⟨record, -, lv, -, hrow⟩ := h
  by_cases hc : (srn_inv_lines (asDict lv)).isEmpty
  · rw [if_pos hc, List.mem_singleton] at hrow
    exact Or.inr ⟨_, _, hrow⟩
  · rw [if_neg hc, List.mem_map] at hrow
    obtain ⟨iv, -, hrow⟩ := hrow
    exact Or.inl ⟨_, _, _, hrow.symm⟩

/-- Length of the per-line row block emitted by `srn_flatten_records`. -/
theorem srn_line_block_length (invs : List RawValue) (a : PyDict)
    (f : RawValue → PyDict) :
    (if invs.isEmpty then [a] else invs.map f).length = max 1 invs.length := by
  cases invs with
  | nil => simp
  | cons x xs => simp [Nat.max_def]

/-- C2 counterexample: a record whose `order_line` fan-out sequence is
empty produces no row at all — the parent record is silently dropped by
both flatteners, not emitted once with empty sub-fields as claimed. -/
theorem flatten_empty_fanout_counterexample :
    oa_flatten_records [[("order_line", RawValue.vlist [])]] = [] ∧
    srn_flatten_records [[("order_line", RawValue.vlist [])]] = [] :=
  ⟨rfl, rfl⟩

/-- C2 amended: a record with an empty `order_line` contributes zero rows
in both flatteners (the parent record is dropped). The
one-row-with-empty-sub-fields behaviour exists only for the inner
`invoice_lines` fan-out of srnjnsr_req_OA.py: an order line with no invoice
lines still yields exactly one row, whose invoice-derived columns are the
empty string (and zero for the two invoice amounts). -/
theorem flatten_empty_fanout_amended :
    (∀ r : PyDict, dictGetD r "order_line" (.vlist []) = .vlist [] →
      oa_flatten_records [r] = [] ∧ srn_flatten_records [r] = []) ∧
    (∀ r line : PyDict,
      dictGetD r "order_line" (.vlist []) = .vlist [.vdict line] →
      srn_inv_lines line = [] →
      srn_flatten_records [r] =
        [srn_row_noinv line
          (asDict (pyOr (dictGetD line "order_id" (.vdict [])) (.vdict [])))]) ∧
    (∀ line order_id : PyDict,
      dictFind (srn_row_noinv line order_id) "Invoice Number" =
        some (.vstr "") ∧
      dictFind (srn_row_noinv line order_id) "Invoice Status" =
        some (.vstr "") ∧
      dictFind (srn_row_noinv line order_id) "Invoice Subtotal" =
        some (.vint 0) ∧
      dictFind (srn_row_noinv line order_id) "Invoice Total" =
        some (.vint 0) ∧
      dictFind (srn_row_noinv line order_id) "Invoice/Bill Date" =
        some (.vstr "")) := by
  refine ⟨fun r h => ⟨?_, ?_⟩, fun r line h hinv => ?_, fun line order_id => ?_⟩
  · simp [oa_flatten_records, h, asList]
  · simp [srn_flatten_records, h, asList]
  · simp [srn_flatten_records, h, hinv, asList, asDict]
  · refine ⟨?_, ?_, ?_, ?_, ?_⟩ <;> simp [srn_row_noinv, srn_row_base, dictFind]

/-- C2 amended witness. -/
theorem flatten_empty_fanout_amended_witness :
    oa_flatten_records [[("order_line", RawValue.vlist [])]] = [] ∧
    srn_flatten_records [[("order_line", RawValue.vlist [.vdict []])]] =
      [srn_row_noinv [] []] := by
  constructor
  · exact (flatten_empty_fanout_amended.1 [("order_line", RawValue.vlist [])]
      rfl).1
  · exact flatten_empty_fanout_amended.2.1 [("order_line",
      RawValue.vlist [.vdict []])] [] rfl rfl

/-- C3 counterexample: a record whose `order_line` has length 1, where that
single order line carries two invoice lines, makes srnjnsr_req_OA.py
`flatten_records` emit 2 rows, not the claimed N = 1. -/
theorem fanout_multi_invoice_counterexample :
    ([RawValue.vdict [("invoice_lines",
        RawValue.vlist [.vdict [("move_name", .vstr "INV1")],
                        .vdict [("move_name", .vstr "INV2")]])]].length = 1) ∧
    (srn_flatten_records
      [[("order_line",
         RawValue.vlist [.vdict [("invoice_lines",
           RawValue.vlist [.vdict [("move_name", .vstr "INV1")],
                           .vdict [("move_name", .vstr "INV2")]])]])]]).length
      = 2 :=
  ⟨rfl, rfl⟩

/-- C3 amended: OA_ITEM_WISE_data_fetch_odoo.py emits exactly one row per
order line, so a record with N order lines yields exactly N rows (for any
N; there are no columns derived from record fields outside the fan-out, so
the identical-parent-columns condition is vacuous there).
srnjnsr_req_OA.py fans out a second time over each line's invoice lines and
yields max(1, #invoice lines) rows per order line — equal to N exactly when
every line has at most one invoice line; the rows arising from one order
line agree on all 24 line-level columns, and every row carries the declared
column list. -/
theorem fanout_row_counts :
    (∀ (r : PyDict) (lines : List RawValue),
      dictGetD r "order_line" (.vlist []) = .vlist lines →
      (oa_flatten_records [r]).length = lines.length) ∧
    (∀ (r : PyDict) (lines : List RawValue),
      dictGetD r "order_line" (.vlist []) = .vlist lines →
      (srn_flatten_records [r]).length =
        (lines.map (fun lv => max 1 (srn_inv_lines (asDict lv)).length)).sum) ∧
    (∀ line order_id inv inv2 : PyDict,
      (srn_row_inv line order_id inv).take 24 =
        (srn_row_inv line order_id inv2).take 24) ∧
    (∀ line order_id inv : PyDict,
      (srn_row_inv line order_id inv).map Prod.fst = srnColumns ∧
      (srn_row_noinv line order_id).map Prod.fst = srnColumns) := by
  refine ⟨fun r lines h => ?_, fun r lines h => ?_,
    fun l o i i2 => (srn_row_inv_take l o i).trans (srn_row_inv_take l o i2).symm,
    fun l o i => ⟨srn_row_inv_keys l o i, srn_row_noinv_keys l o⟩⟩
  · simp [oa_flatten_records, h, asList]
  · simp only [srn_flatten_records, h, asList, List.flatMap_cons,
      List.flatMap_nil, List.append_nil, List.length_flatMap]
    exact congrArg List.sum (List.map_congr_left fun lv _ =>
      srn_line_block_length _ _ _)

/-- C3 amended witness. -/
theorem fanout_row_counts_witness :
    (oa_flatten_records [[("order_line", RawValue.vlist [.vdict [], .vdict []])]]).length = 2 ∧
    (srn_flatten_records [[("order_line", RawValue.vlist [.vdict []])]]).length = 1 := by
  constructor
  · have h := fanout_row_counts.1 [("order_line",
      RawValue.vlist [.vdict [], .vdict []])] [.vdict [], .vdict []] rfl
    simpa using h
  · have h := fanout_row_counts.2.1 [("order_line",
      RawValue.vlist [.vdict []])] [.vdict []] rfl
    simpa using h

/-- C4: `flatten_records` of AR_Report_combine_invoice.py recovers locally
from a raising extraction rule: it always emits one row per record, and a
column whose rule raises is set to the empty string while every other
column of the row keeps its normally evaluated value. -/
theorem flatten_catches_extraction_errors :
    (∀ (records : List PyDict) (m : List (String × FieldSpec)),
      (flatten_records records m).length = records.length) ∧
    (∀ (pre post : List (String × FieldSpec)) (c : String)
       (g : PyDict → Except PyExn RawValue) (r : PyDict) (e : PyExn),
      g r = .error e →
      rowFor (pre ++ (c, .fcall g) :: post) r =
        rowFor pre r ++ (c, .vstr "") :: rowFor post r) := by
  constructor
  · intro records m; simp [flatten_records]
  · intro pre post c g r e he
    simp [rowFor, evalSpec, he]

/-- C4 witness: a two-column map whose second rule always raises still
produces the full row, with the first column resolved from the record and
the failing column empty. -/
theorem flatten_catches_extraction_errors_witness :
    rowFor ([("A", FieldSpec.fname "a")] ++
        ("B", FieldSpec.fcall (fun _ => .error .exn)) :: [])
      [("a", RawValue.vstr "odoo")] =
      [("A", RawValue.vstr "odoo"), ("B", RawValue.vstr "")] := by
  have h := flatten_catches_extraction_errors.2 [("A", FieldSpec.fname "a")] []
    "B" (fun _ => .error .exn) [("a", RawValue.vstr "odoo")] .exn rfl
  exact h.trans rfl

/-- C8: every emitted row has exactly the declared key list, in declaration
order: the generic flattener reproduces the keys of `field_map` in order in
every row, whatever the record contains, and srnjnsr_req_OA.py reproduces
its fixed 29-column list in both of its row shapes. -/
theorem rows_uniform_keys :
    (∀ (records : List PyDict) (m : List (String × FieldSpec)),
      ∀ row ∈ flatten_records records m, row.map Prod.fst = m.map Prod.fst) ∧
    (∀ records : List PyDict, ∀ row ∈ srn_flatten_records records,
      row.map Prod.fst = srnColumns) := by
  constructor
  · intro records m row hrow
    simp only [flatten_records, List.mem_map] at hrow
    obtain ⟨r, -, rfl⟩ := hrow
    simp [rowFor]
  · intro records row hrow
    rcases srn_mem_shape hrow with ⟨l, o, i, rfl⟩ | ⟨l, o, rfl⟩
    · exact srn_row_inv_keys l o i
    · exact srn_row_noinv_keys l o

/-- C8 witness. -/
theorem rows_uniform_keys_witness :
    (rowFor [("A", FieldSpec.fname "a")] []).map Prod.fst = ["A"] ∧
    (srn_row_noinv [] []).map Prod.fst = srnColumns := by
  constructor
  · have h := rows_uniform_keys.1 [[]] [("A", FieldSpec.fname "a")]
      (rowFor [("A", FieldSpec.fname "a")] []) (by simp [flatten_records])
    simpa using h
  · have hmem : srn_row_noinv [] [] ∈
        srn_flatten_records [[("order_line", RawValue.vlist [.vdict []])]] := by
      have heq : srn_flatten_records
          [[("order_line", RawValue.vlist [.vdict []])]] =
          [srn_row_noinv [] []] := rfl
      rw [heq]; exact List.mem_singleton.mpr rfl
    exact rows_uniform_keys.2 [[("order_line", RawValue.vlist [.vdict []])]]
      (srn_row_noinv [] []) hmem

/-- C6: the resolver is total — in the embedding it is a total function,
faithfully, because every Python operation on its non-callable paths
(`dict.get`, truthiness tests, `str`) is non-raising — so a `(field,
subfield)` rule always evaluates to `ok` in `flatten_records`; a bare
integer ignores the subfield and resolves to its decimal string; and the
record `{"partner_id": 12345}` under the rule
`("partner_id", "display_name")` resolves to "12345" without raising. -/
theorem resolver_total_on_bare_int :
    (∀ (r : PyDict) (f : String) (sub : Option String),
      evalSpec (.fpair f sub) r =
        .ok (.vstr (get_string_value (dictGet r f) sub))) ∧
    (∀ (n : Int) (sub : Option String),
      get_string_value (.vint n) sub = toString n) ∧
    evalSpec (.fpair "partner_id" (some "display_name"))
      [("partner_id", .vint 12345)] = .ok (.vstr "12345") :=
  ⟨fun _ _ _ => rfl, fun _ _ => rfl, rfl⟩

/-- Splitting a measure sum along a Boolean predicate on the rows. -/
theorem sum_map_filter_add (l : List (List String × ℚ))
    (p : List String × ℚ → Bool) :
    ((l.filter p).map Prod.snd).sum +
      ((l.filter (fun x => !(p x))).map Prod.snd).sum =
      (l.map Prod.snd).sum := by
  induction l with
  | nil => simp
  | cons x xs ih =>
    by_cases hx : p x
    · simp [List.filter_cons, hx]
      linarith [ih]
    · simp [List.filter_cons, hx]
      linarith [ih]

/-- Summing fiber sums over a duplicate-free key list covering all row keys
recovers the total measure sum. -/
theorem sum_over_keys :
    ∀ (ks : List (List String)) (rows : List (List String × ℚ)),
      ks.Nodup → (∀ r ∈ rows, r.1 ∈ ks) →
      (ks.map (fun k =>
        ((rows.filter (fun r => r.1 = k)).map Prod.snd).sum)).sum =
      (rows.map Prod.snd).sum := by
  intro ks
  induction ks with
  | nil =>
    intro rows _ hcov
    cases rows with
    | nil => simp
    | cons r rs =>
        exact absurd (hcov r (List.mem_cons_self r rs)) (List.not_mem_nil r.1)
  | cons k ks ih =>
    intro rows hnd hcov
    obtain ⟨hknot, hnd2⟩ := List.nodup_cons.mp hnd
    simp only [List.map_cons, List.sum_cons]
    have hrest : ∀ k0 ∈ ks,
        rows.filter (fun r => r.1 = k0) =
        (rows.filter (fun x => !(decide (x.1 = k)))).filter
          (fun r => r.1 = k0) := by
      intro k0 hk0
      rw [List.filter_filter]
      refine (List.filter_congr ?_)
      intro x _
      by_cases hx : x.1 = k0
      · have hne : k0 ≠ k := fun h => hknot (h ▸ hk0)
        simp [hx, hne]
      · simp [hx]
    have hmaps : (ks.map (fun k0 =>
        ((rows.filter (fun r => r.1 = k0)).map Prod.snd).sum)) =
        (ks.map (fun k0 =>
        (((rows.filter (fun x => !(decide (x.1 = k)))).filter
            (fun r => r.1 = k0)).map Prod.snd).sum)) :=
      List.map_congr_left fun k0 hk0 => by rw [hrest k0 hk0]
    rw [hmaps, ih (rows.filter (fun x => !(decide (x.1 = k)))) hnd2 ?cov]
    · exact sum_map_filter_add rows (fun r => decide (r.1 = k))
    · intro r hr
      rw [List.mem_filter] at hr
      obtain ⟨hr1, hr2⟩ := hr
      have hin := hcov r hr1
      rw [List.mem_cons] at hin
      rcases hin with h | h
      · exfalso; simp [h] at hr2
      · exact h

/-- C7: the group-and-sum step conserves the measure total — the sum of the
measure column over the grouped output rows equals its sum over the input
rows, for every input table. -/
theorem groupby_sum_conservation (rows : List (List String × ℚ)) :
    ((groupSum rows).map Prod.snd).sum = (rows.map Prod.snd).sum := by
  unfold groupSum
  rw [List.map_map]
  have hc : (Prod.snd ∘ fun k =>
      (k, ((rows.filter (fun r => r.1 = k)).map Prod.snd).sum)) =
      (fun k => ((rows.filter (fun r => r.1 = k)).map Prod.snd).sum) := rfl
  rw [hc]
  exact sum_over_keys _ rows (List.nodup_dedup _)
    (fun r hr => List.mem_dedup.mpr (List.mem_map_of_mem Prod.fst hr))

/-- Half-to-even rounding of an integer is the integer itself. -/
theorem roundHalfEven_intCast (n : ℤ) : roundHalfEven (n : ℚ) = n := by
  unfold roundHalfEven
  rw [Int.floor_intCast]
  norm_num

/-- `round2` is idempotent: a value already rounded to two decimals is
fixed by a further `round2`. -/
theorem round2_idem (q : ℚ) : round2 (round2 q) = round2 q := by
  unfold round2
  rw [div_mul_cancel₀ _ (by norm_num : (100 : ℚ) ≠ 0), roundHalfEven_intCast]

/-- Grouping a one-row table returns the row unchanged. -/
theorem groupSum_single (k : List String) (q : ℚ) :
    groupSum [(k, q)] = [(k, q)] := by
  have hd : ([k] : List (List String)).dedup = [k] := by
    simp [List.dedup_cons_of_not_mem]
  simp [groupSum, hd]

/-- Two-decimal rounding moves 1/8. -/
theorem round2_eighth : round2 ((1 : ℚ) / 8) = 3 / 25 := by
  have hfloor : ⌊(1 : ℚ) / 8 * 100⌋ = 12 := by
    rw [show (1 : ℚ) / 8 * 100 = 25 / 2 by norm_num, Int.floor_eq_iff]
    constructor <;> norm_num
  have h1 : roundHalfEven ((1 : ℚ) / 8 * 100) = 12 := by
    unfold roundHalfEven
    rw [hfloor]
    norm_num
  unfold round2
  rw [h1]
  norm_num

/-- C9 counterexample: the APR_Combone_Inv_data_fetch.py pipeline hands the
grouped sums to the sink without any rounding step: a measure value of 1/8
(0.125) passes through `normalize_dates_and_group` unchanged, and it is not
equal to its own two-decimal rounding — so not every pipeline rounds
numeric results to 2 decimal places before the sink. -/
theorem grouped_rounding_counterexample :
    apr_group [(["k"], (1 : ℚ) / 8)] = [(["k"], 1 / 8)] ∧
    round2 ((1 : ℚ) / 8) ≠ 1 / 8 := by
  constructor
  · exact groupSum_single ["k"] (1 / 8)
  · rw [round2_eighth]
    norm_num

/-- C9 amended: only the OA_ITEM_WISE_data_fetch_odoo.py and
srnjnsr_req_OA.py pipelines round the grouped numeric results
(`.round(2)`); their sink input consists of values fixed by two-decimal
rounding. APR_Combone_Inv_data_fetch.py, AR_Report_combine_invoice.py and
FG_Dispatch_data_fetch.py hand the grouped sums to the sink unrounded. -/
theorem grouped_rounding_amended :
    ∀ rows : List (List String × ℚ), ∀ p ∈ oa_group_round rows,
      round2 p.2 = p.2 := by
  intro rows p hp
  simp only [oa_group_round, List.mem_map] at hp
  obtain ⟨kr, -, rfl⟩ := hp
  exact round2_idem kr.2

/-- C9 amended witness. -/
theorem grouped_rounding_amended_witness :
    round2 (round2 ((1 : ℚ) / 8)) = round2 ((1 : ℚ) / 8) := by
  have hmem : (["k"], round2 ((1 : ℚ) / 8)) ∈
      oa_group_round [(["k"], (1 : ℚ) / 8)] := by
    rw [oa_group_round, groupSum_single]
    simp
  exact grouped_rounding_amended [(["k"], (1 : ℚ) / 8)]
    (["k"], round2 ((1 : ℚ) / 8)) hmem

/-- The paginated fetch loop, started anywhere: if page `k` (counting from
the start offset in strides of `batch`) is the first short page, the loop
returns the concatenation of pages `0..k` once the fuel covers `k + 1`
iterations. -/
theorem fetch_pages_spec (α : Type) (pages : Nat → List α) (batch : Nat) :
    ∀ (k fuel offset : Nat),
      (pages (offset + k * batch)).length < batch →
      (∀ i < k, batch ≤ (pages (offset + i * batch)).length) →
      k + 1 ≤ fuel →
      fetch_pages pages batch fuel offset =
        ((List.range (k + 1)).map (fun i =>
          pages (offset + i * batch))).flatten := by
  intro k
  induction k with
  | zero =>
    intro fuel offset hshort _ hfuel
    obtain ⟨f, rfl⟩ : ∃ f, fuel = f + 1 := ⟨fuel - 1, by omega⟩
    simp only [Nat.zero_mul, Nat.add_zero] at hshort
    simp [fetch_pages, hshort, List.range_succ]
  | succ k ih =>
    intro fuel offset hshort hfull hfuel
    obtain ⟨f, rfl⟩ : ∃ f, fuel = f + 1 := ⟨fuel - 1, by omega⟩
    have h0 : batch ≤ (pages offset).length := by
      have h00 := hfull 0 (Nat.succ_pos k)
      simpa using h00
    have harr : ∀ i, offset + batch + i * batch = offset + (i + 1) * batch := by
      intro i; ring
    simp only [fetch_pages]
    rw [if_neg (by omega)]
    rw [ih f (offset + batch)
      (by rw [harr k]; exact hshort)
      (fun i hi => by rw [harr i]; exact hfull (i + 1) (by omega))
      (by omega)]
    have hmap : (List.range (k + 1)).map (fun i =>
        pages (offset + batch + i * batch)) =
        (List.range (k + 1)).map ((fun i => pages (offset + i * batch)) ∘
          Nat.succ) :=
      List.map_congr_left fun i _ => by
        simp only [Function.comp_apply, Nat.succ_eq_add_one]
        rw [harr i]
    rw [List.range_succ_eq_map (k + 1), List.map_cons, List.flatten_cons,
      List.map_map, hmap]
    simp

/-- C10: the paginated fetch loop stops at the first page shorter than the
requested batch size and returns exactly the concatenation, in fetch order,
of all pages up to and including that page, the offset advancing by the
batch size each iteration; the result is the same for any sufficient fuel,
which is the embedding of termination of the source `while True` loop. -/
theorem paginated_fetch_stops_at_first_short_page (α : Type)
    (pages : Nat → List α) (batch k fuel : Nat)
    (hshort : (pages (k * batch)).length < batch)
    (hfull : ∀ i < k, batch ≤ (pages (i * batch)).length)
    (hfuel : k + 1 ≤ fuel) :
    fetch_all_data pages batch fuel =
      ((List.range (k + 1)).map (fun i => pages (i * batch))).flatten := by
  unfold fetch_all_data
  have h := fetch_pages_spec α pages batch k fuel 0
    (by simpa using hshort) (fun i hi => by simpa using hfull i hi) hfuel
  simpa using h

/-- C10 witness: three records in pages of two — the second page is short,
the loop stops there and returns all three records in order. -/
theorem paginated_fetch_witness :
    fetch_all_data
      (fun o => if o = 0 then [0, 1] else if o = 2 then [2] else []) 2 2 =
      [0, 1, 2] := by
  have h := paginated_fetch_stops_at_first_short_page Nat
    (fun o => if o = 0 then [0, 1] else if o = 2 then [2] else []) 2 1 2
    (by decide)
    (by intro i hi
        have hi0 : i = 0 := by omega
        subst hi0
        decide)
    (by omega)
  exact h.trans (by decide)
